import Mathlib

/-!
Shallow embedding of the `oxide_image` resource of the terraform-provider-oxide
repository (`internal/provider/resource_image.go`), together with the schema
constraint groups it declares, and proofs of the specification claims about it.

Terraform framework values (`types.String`, `types.Int64`, `types.Object`) are
modelled as `Option` values: `none` is the null value, `some v` a known value.
Unknown values do not reach the modelled flows (Create receives a fully known
plan for these attributes, Read a fully known prior state), so they are not
modelled. `ValueString`/`ValueInt64` return the Go zero value on null, exactly
as the framework does.

Every engine operation is modelled as a pure function that also returns the
list of remote (Adapter) calls it issued, so that "no remote call is made" is
a provable statement. The remote client is a parameter: a function from typed
request parameters to `Except ApiError` of the typed result, mirroring the
`oxide.Client` methods used by the resource.
-/

namespace OxideImage

/-- Severity of a diagnostic, as in the terraform-plugin-framework `diag`
package: error or warning. -/
inductive Severity where
  | error
  | warning
  deriving DecidableEq

/-- Diagnostic with severity, summary and detail, as produced by
`resp.Diagnostics.AddError(summary, detail)` (severity error). -/
structure Diagnostic where
  severity : Severity
  summary : String
  detail : String
  deriving DecidableEq

/-- Whether a diagnostic list contains an error-severity entry, as in
`resp.Diagnostics.HasError()`. -/
def hasError (ds : List Diagnostic) : Bool :=
  ds.any fun d => d.severity = Severity.error

/-- ValueString of a `types.String`: the value, or the empty string when null
(the Go framework's `ValueString`). -/
def valueString : Option String → String
  | none => ""
  | some s => s

/-- ValueInt64 of a `types.Int64`: the value, or 0 when null (the Go
framework's `ValueInt64`). -/
def valueInt64 : Option Int → Int
  | none => 0
  | some n => n

/-- Nested digest object of the image model (`imageResourceDigestModel`), two
`types.String` fields `type` and `value`. -/
structure imageResourceDigestModel where
  type : Option String
  value : Option String
  deriving DecidableEq

/-- The `imageResourceModel` state/plan shape of the `oxide_image` resource.
The `timeouts` attribute value is modelled as an optional configured timeout;
its parsing happens inside the framework's `timeouts` helper and cannot fail
in the modelled flows. -/
structure imageResourceModel where
  blockSize : Option Int
  description : Option String
  digest : Option imageResourceDigestModel
  id : Option String
  name : Option String
  os : Option String
  projectId : Option String
  size : Option Int
  sourceSnapshotId : Option String
  sourceUrl : Option String
  timeCreated : Option String
  timeModified : Option String
  version : Option String
  timeouts : Option Nat
  deriving DecidableEq

/-- Modelled from the spec: the shared `defaultTimeout` helper of the provider
is not under src/; the spec says each operation runs within a
configuration-supplied timeout, with a default when unset. The concrete value
is irrelevant to every claim. -/
def defaultTimeout : Nat := 600

/-- Timeout actually used by an operation: the configured one or the default
(`plan.Timeouts.Create(ctx, defaultTimeout())` and the Read analogue). -/
def timeoutOrDefault : Option Nat → Nat
  | none => defaultTimeout
  | some t => t

/-! ### Remote API adapter types (oxide SDK shapes used by the resource) -/

/-- Modelled from the spec: the repository's `is404` helper is not under src/;
the spec's Adapter contract classifies every failure as not-found or other, so
an `ApiError` carries its message and its not-found classification. -/
structure ApiError where
  message : String
  notFound : Bool
  deriving DecidableEq

/-- The `is404` classification used by Read to detect an absent remote
object. -/
def is404 (e : ApiError) : Bool := e.notFound

/-- Digest of a remote image (`oxide.Digest`): type and value strings. -/
structure Digest where
  type : String
  value : String
  deriving DecidableEq

/-- Remote image object (`oxide.Image`) with the fields the resource reads.
Timestamps are modelled as their rendered strings, since the resource stores
`image.TimeCreated.String()`. Sizes are Go `int` values, modelled as `Int`. -/
structure Image where
  blockSize : Int
  description : String
  digest : Digest
  id : String
  name : String
  os : String
  projectId : String
  size : Int
  timeCreated : String
  timeModified : String
  url : String
  version : String
  deriving DecidableEq

/-- Image source type (`oxide.ImageSourceType`): snapshot, URL, or the
hard-coded testing variant
`ImageSourceTypeYouCanBootAnythingAsLongAsItsAlpine`. -/
inductive ImageSourceType where
  | snapshot
  | url
  | youCanBootAnythingAsLongAsItsAlpine
  deriving DecidableEq

/-- Image source (`oxide.ImageSource`): id, type and block size. A branch of
Create that does not assign `BlockSize` leaves the Go zero value 0. -/
structure ImageSource where
  id : String
  type : ImageSourceType
  blockSize : Int
  deriving DecidableEq

/-- Body of an image create request (`oxide.ImageCreate`). -/
structure ImageCreate where
  description : String
  name : String
  os : String
  version : String
  source : ImageSource
  deriving DecidableEq

/-- Parameters of the remote create call (`oxide.ImageCreateParams`). -/
structure ImageCreateParams where
  project : String
  body : ImageCreate
  deriving DecidableEq

/-! ### Schema declaration -/

/-- String-attribute validator declarations available to the schema, as in
the terraform-plugin-framework-validators `stringvalidator` package: each
names the other attribute paths of its constraint group. -/
inductive StringValidatorDecl where
  | exactlyOneOf (paths : List String)
  | alsoRequires (paths : List String)
  | conflictsWith (paths : List String)
  deriving DecidableEq

/-- One attribute descriptor of the resource schema: name, requiredness
flags, whether a `RequiresReplace` plan modifier is declared, and the
declared validators. -/
structure SchemaAttribute where
  name : String
  required : Bool := false
  optional : Bool := false
  computed : Bool := false
  requiresReplace : Bool := false
  validators : List StringValidatorDecl := []
  deriving DecidableEq

/-- Timeout blocks enabled for the resource (`timeouts.Opts`). -/
structure TimeoutOpts where
  create : Bool
  read : Bool
  update : Bool
  delete : Bool
  deriving DecidableEq

/-- A resource schema: its own attribute descriptors plus the enabled
timeout blocks (the `timeouts` attribute is the framework-supplied block,
kept separate from the resource's own attributes). -/
structure ResourceSchema where
  attributes : List SchemaAttribute
  timeoutOpts : TimeoutOpts
  deriving DecidableEq

/-- The schema declared by `imageResource.Schema`, attribute by attribute in
source order. Every user-settable attribute carries `RequiresReplace`; the
computed attributes (`digest`, `id`, `size`, `time_created`,
`time_modified`) carry no plan modifier. Update and Delete timeout blocks
are commented out in the source, hence disabled here. -/
def imageSchema : ResourceSchema :=
  { attributes :=
      [ { name := "name", required := true, requiresReplace := true },
        { name := "project_id", required := true, requiresReplace := true },
        { name := "description", required := true, requiresReplace := true },
        { name := "os", required := true, requiresReplace := true },
        { name := "version", required := true, requiresReplace := true },
        { name := "block_size", optional := true, requiresReplace := true },
        { name := "source_snapshot_id", optional := true, requiresReplace := true,
          validators :=
            [ StringValidatorDecl.exactlyOneOf ["source_url", "source_snapshot_id"],
              StringValidatorDecl.conflictsWith ["block_size"] ] },
        { name := "source_url", optional := true, requiresReplace := true,
          validators := [StringValidatorDecl.alsoRequires ["block_size"]] },
        { name := "digest", computed := true },
        { name := "id", computed := true },
        { name := "size", computed := true },
        { name := "time_created", computed := true },
        { name := "time_modified", computed := true } ],
    timeoutOpts := { create := true, read := true, update := false, delete := false } }

/-- Null-ness of each schema attribute in a plan, used by the validators
(an attribute path matches the corresponding model field). -/
def imageResourceModel.attrIsNull (plan : imageResourceModel) : String → Bool
  | "name" => plan.name.isNone
  | "project_id" => plan.projectId.isNone
  | "description" => plan.description.isNone
  | "os" => plan.os.isNone
  | "version" => plan.version.isNone
  | "block_size" => plan.blockSize.isNone
  | "source_snapshot_id" => plan.sourceSnapshotId.isNone
  | "source_url" => plan.sourceUrl.isNone
  | _ => true

/-- Number of configured (non-null) attributes among the attribute a
validator is declared on and its listed paths; the attribute itself is
counted once and skipped when it reappears in the list, exactly as the
framework validator merges and deduplicates path expressions. -/
def countConfigured (isNull : String → Bool) (selfName : String) (paths : List String) : Nat :=
  (if isNull selfName then 0 else 1) +
    ((paths.filter fun p => p != selfName).filter fun p => !isNull p).length

/-- Semantics of the declared string validators, as implemented by the
terraform-plugin-framework-validators package over fully known values:
`ExactlyOneOf` requires exactly one configured attribute in its group;
`AlsoRequires` and `ConflictsWith` are skipped when the attribute they are
declared on is null, and otherwise require each listed path to be
configured, respectively unconfigured. All violations are error-severity
diagnostics. -/
def runStringValidatorDecl (isNull : String → Bool) (selfName : String) :
    StringValidatorDecl → List Diagnostic
  | StringValidatorDecl.exactlyOneOf paths =>
    let count := countConfigured isNull selfName paths
    if count = 1 then []
    else if count = 0 then
      [{ severity := Severity.error, summary := "Invalid Attribute Combination",
         detail := "No attribute specified when one (and only one) of [" ++
           String.intercalate "," paths ++ "] is required" }]
    else
      [{ severity := Severity.error, summary := "Invalid Attribute Combination",
         detail := toString count ++
           " attributes specified when one (and only one) of [" ++
           String.intercalate "," paths ++ "] is required" }]
  | StringValidatorDecl.alsoRequires paths =>
    if isNull selfName then []
    else (paths.filter fun p => p != selfName).filterMap fun p =>
      if isNull p then
        some { severity := Severity.error, summary := "Invalid Attribute Combination",
               detail := "Attribute \"" ++ p ++ "\" must be specified when \"" ++
                 selfName ++ "\" is specified" }
      else none
  | StringValidatorDecl.conflictsWith paths =>
    if isNull selfName then []
    else (paths.filter fun p => p != selfName).filterMap fun p =>
      if isNull p then none
      else
        some { severity := Severity.error, summary := "Invalid Attribute Combination",
               detail := "Attribute \"" ++ p ++ "\" cannot be specified when \"" ++
                 selfName ++ "\" is specified" }

/-- All diagnostics produced by running every validator declared in the image
schema against a desired configuration; the framework runs these during
config validation, before the resource's Create method. -/
def validateImageConfig (plan : imageResourceModel) : List Diagnostic :=
  (imageSchema.attributes.map fun a =>
    (a.validators.map (runStringValidatorDecl plan.attrIsNull a.name)).flatten).flatten

/-! ### Create -/

/-- Outcome of a Create invocation: the accumulated diagnostics, the state
recorded by `resp.State.Set` (`none` when the method returned before setting
any state — for Create the response state starts empty since the resource
does not exist yet), and the list of remote create calls issued. -/
structure CreateOutcome where
  diagnostics : List Diagnostic
  state : Option imageResourceModel
  remoteCalls : List ImageCreateParams
  deriving DecidableEq

/-- The hard-coded source_url value given the special source type in Create
(marked in the source as for testing purposes only). -/
def magicAlpineValue : String := "you_can_boot_anything_as_long_as_its_alpine"

/-- Resolution of the Source-Union inside Create (`is := oxide.ImageSource{}`
and the branch over `SourceSnapshotID`/`SourceURL`): the snapshot variant
wins when non-null, else the URL variant (with the hard-coded override when
the value equals `magicAlpineValue`, and `BlockSize` taken from the plan);
with both null, the "One of ..." error diagnostic is returned and Create
stops before any remote call. -/
def imageSource (plan : imageResourceModel) : Except Diagnostic ImageSource :=
  if plan.sourceSnapshotId.isSome then
    Except.ok { id := valueString plan.sourceSnapshotId,
                type := ImageSourceType.snapshot, blockSize := 0 }
  else if plan.sourceUrl.isSome then
    Except.ok { id := valueString plan.sourceUrl,
                type :=
                  if plan.sourceUrl = some magicAlpineValue then
                    ImageSourceType.youCanBootAnythingAsLongAsItsAlpine
                  else ImageSourceType.url,
                blockSize := valueInt64 plan.blockSize }
  else
    Except.error { severity := Severity.error, summary := "Error creating image",
                   detail := "One of `source_url` or `source_snapshot_id` must be set" }

/-- The `oxide.ImageCreateParams` value assembled by Create from the plan and
the resolved source. -/
def imageCreateParamsOf (plan : imageResourceModel) (src : ImageSource) : ImageCreateParams :=
  { project := valueString plan.projectId,
    body := { description := valueString plan.description,
              name := valueString plan.name,
              os := valueString plan.os,
              version := valueString plan.version,
              source := src } }

/-- State recorded by Create on success: the plan with every computed
attribute (`id`, `size`, `time_created`, `time_modified`, `digest`) and
`version` overwritten from the remote object returned by the create call. -/
def createStateFrom (plan : imageResourceModel) (image : Image) : imageResourceModel :=
  { plan with
    id := some image.id,
    size := some image.size,
    timeCreated := some image.timeCreated,
    timeModified := some image.timeModified,
    version := some image.version,
    digest := some { type := some image.digest.type, value := some image.digest.value } }

/-- Body of `imageResource.Create`, parameterized by the client's
`ImageCreate` method: resolve the source union (error diagnostic and no
remote call when no variant is populated), issue the remote create call,
and on success record the mapped state; on remote failure add the
"API error: ..." diagnostic and record no state. -/
def imageCreateBody (client : ImageCreateParams → Except ApiError Image)
    (plan : imageResourceModel) : CreateOutcome :=
  match imageSource plan with
  | Except.error d => { diagnostics := [d], state := none, remoteCalls := [] }
  | Except.ok src =>
    match client (imageCreateParamsOf plan src) with
    | Except.error e =>
      { diagnostics :=
          [{ severity := Severity.error, summary := "Error creating image",
             detail := "API error: " ++ e.message }],
        state := none,
        remoteCalls := [imageCreateParamsOf plan src] }
    | Except.ok image =>
      { diagnostics := [],
        state := some (createStateFrom plan image),
        remoteCalls := [imageCreateParamsOf plan src] }

/-- The Create operation as the host framework drives it: the declared
schema validators run against the desired configuration first, and a
validation error stops the operation before the resource's Create method
(and hence before any remote call); otherwise the Create body runs. -/
def imageCreate (client : ImageCreateParams → Except ApiError Image)
    (plan : imageResourceModel) : CreateOutcome :=
  if hasError (validateImageConfig plan) then
    { diagnostics := validateImageConfig plan, state := none, remoteCalls := [] }
  else
    { diagnostics := validateImageConfig plan ++ (imageCreateBody client plan).diagnostics,
      state := (imageCreateBody client plan).state,
      remoteCalls := (imageCreateBody client plan).remoteCalls }

/-! ### Read -/

/-- Outcome of a Read invocation: diagnostics, the resulting recorded state
(`none` after `resp.State.RemoveResource`, the prior state when the method
returns without touching the response state), and the identifiers passed to
remote view calls. -/
structure ReadOutcome where
  diagnostics : List Diagnostic
  state : Option imageResourceModel
  remoteCalls : List String
  deriving DecidableEq

/-- State recorded by Read on success: every attribute overwritten from the
remote object, except that `project_id` and `source_url` keep their prior
values when the remote fields are empty (images with silo visibility may
lack a project, and not every image has a URL source), and
`source_snapshot_id` and `timeouts`, which Read does not assign. -/
def readStateFrom (state : imageResourceModel) (image : Image) : imageResourceModel :=
  { state with
    blockSize := some image.blockSize,
    description := some image.description,
    id := some image.id,
    name := some image.name,
    os := some image.os,
    size := some image.size,
    timeCreated := some image.timeCreated,
    timeModified := some image.timeModified,
    version := some image.version,
    projectId := if image.projectId != "" then some image.projectId else state.projectId,
    sourceUrl := if image.url != "" then some image.url else state.sourceUrl,
    digest := some { type := some image.digest.type, value := some image.digest.value } }

/-- The `imageResource.Read` method, parameterized by the client's
`ImageView` method. On a not-found failure the resource is removed from
state with no diagnostic; on any other failure the "API error: ..."
diagnostic is added and the response state (initialized by the framework to
the prior state) is left untouched; on success the refreshed state is
recorded. -/
def imageRead (client : String → Except ApiError Image)
    (state : imageResourceModel) : ReadOutcome :=
  match client (valueString state.id) with
  | Except.error e =>
    if is404 e then
      { diagnostics := [], state := none, remoteCalls := [valueString state.id] }
    else
      { diagnostics :=
          [{ severity := Severity.error, summary := "Unable to read image:",
             detail := "API error: " ++ e.message }],
        state := some state,
        remoteCalls := [valueString state.id] }
  | Except.ok image =>
    { diagnostics := [],
      state := some (readStateFrom state image),
      remoteCalls := [valueString state.id] }

/-! ### Update and Delete -/

/-- Update request: the planned configuration and the prior recorded state
(`req.Plan` and `req.State`). -/
structure UpdateRequest where
  plan : imageResourceModel
  state : imageResourceModel
  deriving DecidableEq

/-- Outcome of an Update invocation: diagnostics, the response state, and
remote calls issued (by their request description). -/
structure UpdateOutcome where
  diagnostics : List Diagnostic
  state : Option imageResourceModel
  remoteCalls : List String
  deriving DecidableEq

/-- The `imageResource.Update` method: it unconditionally adds the "does not
support updating images" error diagnostic, never touches the response state
(passed in as initialized by the framework), and issues no remote call. -/
def imageUpdate (_req : UpdateRequest) (respState : Option imageResourceModel) : UpdateOutcome :=
  { diagnostics :=
      [{ severity := Severity.error, summary := "Error updating image",
         detail := "the oxide API currently does not support updating images" }],
    state := respState,
    remoteCalls := [] }

/-- Outcome of a Delete invocation: diagnostics and remote calls issued. -/
structure DeleteOutcome where
  diagnostics : List Diagnostic
  remoteCalls : List String
  deriving DecidableEq

/-- The `imageResource.Delete` method: the real deletion is commented out in
the source; the method unconditionally adds the "does not support deleting
images" error diagnostic and issues no remote call, whatever the recorded
state. -/
def imageDelete (_state : imageResourceModel) : DeleteOutcome :=
  { diagnostics :=
      [{ severity := Severity.error, summary := "Error deleting image",
         detail := "the oxide API currently does not support deleting images" }],
    remoteCalls := [] }

/-- Number of populated Source-Union variants of the image kind. -/
def variantCount (plan : imageResourceModel) : Nat :=
  (if plan.sourceSnapshotId.isSome then 1 else 0) +
    (if plan.sourceUrl.isSome then 1 else 0)

/-! ### Concrete fixtures -/

/-- Model with every attribute null. -/
def emptyModel : imageResourceModel :=
  { blockSize := none, description := none, digest := none, id := none,
    name := none, os := none, projectId := none, size := none,
    sourceSnapshotId := none, sourceUrl := none, timeCreated := none,
    timeModified := none, version := none, timeouts := none }

/-- Valid snapshot-sourced plan. -/
def snapPlan : imageResourceModel :=
  { emptyModel with
    name := some "img", projectId := some "proj-1", description := some "an image",
    os := some "alpine", version := some "3.16", sourceSnapshotId := some "snap-1" }

/-- URL-sourced plan missing `block_size`. -/
def urlPlanNoBlockSize : imageResourceModel :=
  { emptyModel with
    name := some "img", projectId := some "proj-1", description := some "an image",
    os := some "alpine", version := some "3.16",
    sourceUrl := some "http://example.com/alpine.raw" }

/-- Plan whose `source_url` equals the hard-coded testing value. -/
def alpinePlan : imageResourceModel :=
  { emptyModel with
    name := some "img", projectId := some "proj-1", description := some "an image",
    os := some "alpine", version := some "3.16",
    sourceUrl := some magicAlpineValue, blockSize := some 512 }

/-- Recorded state with a remote identifier. -/
def identifiedState : imageResourceModel :=
  { emptyModel with id := some "5a2c57b7" }

/-- Remote image object fixture. -/
def sampleImage : Image :=
  { blockSize := 512, description := "an image",
    digest := { type := "sha256", value := "abc123" },
    id := "5a2c57b7", name := "img", os := "alpine", projectId := "proj-1",
    size := 1073741824, timeCreated := "t1", timeModified := "t2",
    url := "http://example.com/alpine.raw", version := "3.16" }

/-- Remote image fixture with empty project and URL fields. -/
def sampleImageNoProject : Image :=
  { sampleImage with projectId := "", url := "" }

/-- Remote error fixture classified not-found. -/
def notFoundError : ApiError := { message := "not found", notFound := true }

/-- Remote error fixture not classified not-found. -/
def serverError : ApiError := { message := "internal server error", notFound := false }

/-- Create client that always fails with a non-404 error. -/
def createClientErr : ImageCreateParams → Except ApiError Image :=
  fun _ => Except.error serverError

/-- Create client that always succeeds with `sampleImage`. -/
def createClientOk : ImageCreateParams → Except ApiError Image :=
  fun _ => Except.ok sampleImage

/-- View client that always reports not-found. -/
def viewClient404 : String → Except ApiError Image :=
  fun _ => Except.error notFoundError

/-- View client that always fails with a non-404 error. -/
def viewClientErr : String → Except ApiError Image :=
  fun _ => Except.error serverError

/-- View client that always returns `sampleImageNoProject`. -/
def viewClientNoProject : String → Except ApiError Image :=
  fun _ => Except.ok sampleImageNoProject

/-! ### Helper lemmas -/

/-- Unfolding of the Create operation when config validation passes. -/
theorem imageCreate_valid_eq (client : ImageCreateParams → Except ApiError Image)
    (plan : imageResourceModel)
    (hv : hasError (validateImageConfig plan) = false) :
    imageCreate client plan =
      { diagnostics := validateImageConfig plan ++ (imageCreateBody client plan).diagnostics,
        state := (imageCreateBody client plan).state,
        remoteCalls := (imageCreateBody client plan).remoteCalls } := by
  unfold imageCreate
  rw [hv]
  simp

/-- Unfolding of the Create body when the remote call fails. -/
theorem imageCreateBody_err (client : ImageCreateParams → Except ApiError Image)
    (plan : imageResourceModel) (src : ImageSource) (e : ApiError)
    (hsrc : imageSource plan = Except.ok src)
    (he : client (imageCreateParamsOf plan src) = Except.error e) :
    imageCreateBody client plan =
      { diagnostics :=
          [{ severity := Severity.error, summary := "Error creating image",
             detail := "API error: " ++ e.message }],
        state := none,
        remoteCalls := [imageCreateParamsOf plan src] } := by
  unfold imageCreateBody
  rw [hsrc]
  simp [he]

/-- Unfolding of the Create body when the remote call succeeds. -/
theorem imageCreateBody_ok (client : ImageCreateParams → Except ApiError Image)
    (plan : imageResourceModel) (src : ImageSource) (image : Image)
    (hsrc : imageSource plan = Except.ok src)
    (hi : client (imageCreateParamsOf plan src) = Except.ok image) :
    imageCreateBody client plan =
      { diagnostics := [],
        state := some (createStateFrom plan image),
        remoteCalls := [imageCreateParamsOf plan src] } := by
  unfold imageCreateBody
  rw [hsrc]
  simp [hi]

/-- The single remote call issued by a Create whose validation passed. -/
theorem imageCreate_remoteCalls_valid (client : ImageCreateParams → Except ApiError Image)
    (plan : imageResourceModel) (src : ImageSource)
    (hv : hasError (validateImageConfig plan) = false)
    (hsrc : imageSource plan = Except.ok src) :
    (imageCreate client plan).remoteCalls = [imageCreateParamsOf plan src] := by
  rw [imageCreate_valid_eq client plan hv]
  cases hc : client (imageCreateParamsOf plan src) with
  | error e => rw [imageCreateBody_err client plan src e hsrc hc]
  | ok image => rw [imageCreateBody_ok client plan src image hsrc hc]

/-! ### Claims -/

/-- C1: For the image kind's Source-Union (variants `source_url` and
`source_snapshot_id`), Create invoked with zero variants populated, or with
more than one variant populated, returns an error-severity validation
diagnostic and makes no remote create call. -/
theorem create_source_union_validation
    (client : ImageCreateParams → Except ApiError Image) (plan : imageResourceModel)
    (h : variantCount plan ≠ 1) :
    hasError (imageCreate client plan).diagnostics = true ∧
    (imageCreate client plan).remoteCalls = [] := by
  obtain ⟨bs, de, dg, id, nm, os, pid, sz, ssid, surl, tc, tm, ver, tmo⟩ := plan
  cases ssid <;> cases surl <;> cases bs <;>
    first
      | exact absurd rfl h
      | exact ⟨rfl, rfl⟩

/-- Witness for C1: the all-null plan populates zero variants, and Create on
it errors with no remote call. -/
theorem create_source_union_validation_witness :
    variantCount emptyModel ≠ 1 ∧
    (hasError (imageCreate createClientOk emptyModel).diagnostics = true ∧
      (imageCreate createClientOk emptyModel).remoteCalls = []) :=
  ⟨by decide, create_source_union_validation createClientOk emptyModel (by decide)⟩

/-- C2: Update of the image kind always returns the "does not support
updating images" error diagnostic, issues no remote call, and leaves the
response state exactly as it was handed in (the prior recorded state). -/
theorem update_unsupported_frame (req : UpdateRequest)
    (respState : Option imageResourceModel) :
    (imageUpdate req respState).state = respState ∧
    (imageUpdate req respState).remoteCalls = [] ∧
    (imageUpdate req respState).diagnostics =
      [{ severity := Severity.error, summary := "Error updating image",
         detail := "the oxide API currently does not support updating images" }] ∧
    hasError (imageUpdate req respState).diagnostics = true :=
  ⟨rfl, rfl, rfl, rfl⟩

/-- C4 counterexample: a recorded state whose identifier the remote API
reports as absent (the view client answers not-found for it) on which Delete
nevertheless returns an error-severity diagnostic, refuting the idempotent
delete claim for the image kind. -/
theorem delete_idempotent_counterexample :
    viewClient404 (valueString identifiedState.id) = Except.error notFoundError ∧
    is404 notFoundError = true ∧
    hasError (imageDelete identifiedState).diagnostics = true :=
  ⟨rfl, rfl, rfl⟩

/-- C4 amended: Delete of the image kind is unsupported: for every recorded
state (in particular one whose identifier is already absent remotely) it
returns the fixed "does not support deleting images" error diagnostic and
issues no remote call. -/
theorem delete_unsupported_fixed (state : imageResourceModel) :
    (imageDelete state).diagnostics =
      [{ severity := Severity.error, summary := "Error deleting image",
         detail := "the oxide API currently does not support deleting images" }] ∧
    (imageDelete state).remoteCalls = [] :=
  ⟨rfl, rfl⟩

/-- C9: every user-settable attribute of the image schema (exactly `name`,
`project_id`, `description`, `os`, `version`, `block_size`,
`source_snapshot_id`, `source_url`) is declared with `RequiresReplace`, so
a change forces destroy-and-recreate; and Update issues no remote call and
always errors. -/
theorem image_schema_immutability (req : UpdateRequest)
    (respState : Option imageResourceModel) :
    (∀ a ∈ imageSchema.attributes,
      (a.required || a.optional) = true → a.requiresReplace = true) ∧
    ((imageSchema.attributes.filter fun a => a.required || a.optional).map
        SchemaAttribute.name =
      ["name", "project_id", "description", "os", "version", "block_size",
       "source_snapshot_id", "source_url"]) ∧
    (imageUpdate req respState).remoteCalls = [] ∧
    hasError (imageUpdate req respState).diagnostics = true :=
  ⟨by decide, by decide, rfl, rfl⟩

/-- C3: when the view-by-identifier call fails, Read removes the resource
and reports no diagnostic if the failure is not-found, and otherwise adds an
error diagnostic and leaves the recorded state unmodified. -/
theorem read_not_found_absence (client : String → Except ApiError Image)
    (state : imageResourceModel) (e : ApiError)
    (h : client (valueString state.id) = Except.error e) :
    (is404 e = true →
      (imageRead client state).state = none ∧
      (imageRead client state).diagnostics = []) ∧
    (is404 e = false →
      (imageRead client state).state = some state ∧
      hasError (imageRead client state).diagnostics = true) := by
  constructor
  · intro h404
    simp [imageRead, h, h404]
  · intro h404
    simp [imageRead, h, h404, hasError]

/-- Witness for C3: on a not-found view failure, Read on a concrete state
signals absence with no diagnostics. -/
theorem read_not_found_absence_witness :
    (imageRead viewClient404 identifiedState).state = none ∧
    (imageRead viewClient404 identifiedState).diagnostics = [] :=
  (read_not_found_absence viewClient404 identifiedState notFoundError rfl).1 rfl

/-- C5: when the remote create call that Create issued fails, Create records
no state and returns an error diagnostic whose detail carries the adapter's
underlying error message (prefixed "API error: "). -/
theorem create_remote_failure (client : ImageCreateParams → Except ApiError Image)
    (plan : imageResourceModel) (src : ImageSource) (e : ApiError)
    (hv : hasError (validateImageConfig plan) = false)
    (hsrc : imageSource plan = Except.ok src)
    (he : client (imageCreateParamsOf plan src) = Except.error e) :
    (imageCreate client plan).state = none ∧
    hasError (imageCreate client plan).diagnostics = true ∧
    ∃ d ∈ (imageCreate client plan).diagnostics,
      d.severity = Severity.error ∧ d.detail = "API error: " ++ e.message := by
  rw [imageCreate_valid_eq client plan hv, imageCreateBody_err client plan src e hsrc he]
  refine ⟨rfl, ?_, ?_⟩
  · simp [hasError, List.any_append]
  · exact ⟨_, List.mem_append_right _ (List.mem_singleton.mpr rfl), rfl, rfl⟩

/-- Witness for C5: a valid snapshot-sourced plan against an always-failing
create client. -/
theorem create_remote_failure_witness :
    (imageCreate createClientErr snapPlan).state = none ∧
    hasError (imageCreate createClientErr snapPlan).diagnostics = true ∧
    ∃ d ∈ (imageCreate createClientErr snapPlan).diagnostics,
      d.severity = Severity.error ∧
      d.detail = "API error: " ++ serverError.message :=
  create_remote_failure createClientErr snapPlan
    { id := "snap-1", type := ImageSourceType.snapshot, blockSize := 0 }
    serverError rfl rfl rfl

/-- C6: on a successful remote create, Create records the plan with every
computed attribute (`id`, `size`, `time_created`, `time_modified`, `digest`)
overwritten by the corresponding field of the remote object returned by the
call, whatever values the caller supplied for them. -/
theorem create_success_computed (client : ImageCreateParams → Except ApiError Image)
    (plan : imageResourceModel) (src : ImageSource) (image : Image)
    (hv : hasError (validateImageConfig plan) = false)
    (hsrc : imageSource plan = Except.ok src)
    (hi : client (imageCreateParamsOf plan src) = Except.ok image) :
    (imageCreate client plan).state = some (createStateFrom plan image) ∧
    (createStateFrom plan image).id = some image.id ∧
    (createStateFrom plan image).size = some image.size ∧
    (createStateFrom plan image).timeCreated = some image.timeCreated ∧
    (createStateFrom plan image).timeModified = some image.timeModified ∧
    (createStateFrom plan image).digest =
      some { type := some image.digest.type, value := some image.digest.value } := by
  refine ⟨?_, rfl, rfl, rfl, rfl, rfl⟩
  rw [imageCreate_valid_eq client plan hv, imageCreateBody_ok client plan src image hsrc hi]

/-- Witness for C6: a valid snapshot-sourced plan against a create client
returning `sampleImage`; every computed attribute of the recorded state is
the remote object's. -/
theorem create_success_computed_witness :
    (imageCreate createClientOk snapPlan).state =
      some (createStateFrom snapPlan sampleImage) ∧
    (createStateFrom snapPlan sampleImage).id = some sampleImage.id ∧
    (createStateFrom snapPlan sampleImage).size = some sampleImage.size ∧
    (createStateFrom snapPlan sampleImage).timeCreated = some sampleImage.timeCreated ∧
    (createStateFrom snapPlan sampleImage).timeModified = some sampleImage.timeModified ∧
    (createStateFrom snapPlan sampleImage).digest =
      some { type := some sampleImage.digest.type,
             value := some sampleImage.digest.value } :=
  create_success_computed createClientOk snapPlan
    { id := "snap-1", type := ImageSourceType.snapshot, blockSize := 0 }
    sampleImage rfl rfl rfl

/-- C7: on a successful Read, `project_id` keeps its prior value exactly when
the remote project field is empty, `source_url` keeps its prior value exactly
when the remote URL field is empty, and every other attribute the method
assigns — including all computed ones — is overwritten from the remote
object. -/
theorem read_success_overwrite (client : String → Except ApiError Image)
    (state : imageResourceModel) (image : Image)
    (h : client (valueString state.id) = Except.ok image) :
    (imageRead client state).state = some (readStateFrom state image) ∧
    (imageRead client state).diagnostics = [] ∧
    (image.projectId = "" →
      (readStateFrom state image).projectId = state.projectId) ∧
    (image.projectId ≠ "" →
      (readStateFrom state image).projectId = some image.projectId) ∧
    (image.url = "" → (readStateFrom state image).sourceUrl = state.sourceUrl) ∧
    (image.url ≠ "" → (readStateFrom state image).sourceUrl = some image.url) ∧
    (readStateFrom state image).id = some image.id ∧
    (readStateFrom state image).size = some image.size ∧
    (readStateFrom state image).timeCreated = some image.timeCreated ∧
    (readStateFrom state image).timeModified = some image.timeModified ∧
    (readStateFrom state image).digest =
      some { type := some image.digest.type, value := some image.digest.value } ∧
    (readStateFrom state image).blockSize = some image.blockSize ∧
    (readStateFrom state image).description = some image.description ∧
    (readStateFrom state image).name = some image.name ∧
    (readStateFrom state image).os = some image.os ∧
    (readStateFrom state image).version = some image.version := by
  refine ⟨?_, ?_, ?_, ?_, ?_, ?_, rfl, rfl, rfl, rfl, rfl, rfl, rfl, rfl, rfl, rfl⟩
  · simp [imageRead, h]
  · simp [imageRead, h]
  · intro hp
    simp [readStateFrom, hp]
  · intro hp
    simp [readStateFrom, bne_iff_ne, hp]
  · intro hu
    simp [readStateFrom, hu]
  · intro hu
    simp [readStateFrom, bne_iff_ne, hu]

/-- Witness for C7: reading a state against a remote image whose project and
URL fields are empty keeps the prior `project_id` and `source_url`. -/
theorem read_success_overwrite_witness :
    (imageRead viewClientNoProject snapPlan).state =
      some (readStateFrom snapPlan sampleImageNoProject) ∧
    (readStateFrom snapPlan sampleImageNoProject).projectId = snapPlan.projectId ∧
    (readStateFrom snapPlan sampleImageNoProject).sourceUrl = snapPlan.sourceUrl ∧
    (readStateFrom snapPlan sampleImageNoProject).id = some sampleImageNoProject.id := by
  have h := read_success_overwrite viewClientNoProject snapPlan sampleImageNoProject rfl
  exact ⟨h.1, h.2.2.1 rfl, h.2.2.2.2.1 rfl, h.2.2.2.2.2.2.1⟩

/-- C8: Create on a plan with `source_url` populated and `block_size` null
returns an error-severity diagnostic referencing the also-requires
constraint between `source_url` and `block_size`, and makes no remote
call. -/
theorem create_also_requires_block_size
    (client : ImageCreateParams → Except ApiError Image) (plan : imageResourceModel)
    (hu : plan.sourceUrl.isSome = true) (hb : plan.blockSize = none) :
    hasError (imageCreate client plan).diagnostics = true ∧
    (imageCreate client plan).remoteCalls = [] ∧
    ({ severity := Severity.error, summary := "Invalid Attribute Combination",
       detail := "Attribute \"block_size\" must be specified when \"source_url\" is specified" } :
      Diagnostic) ∈ (imageCreate client plan).diagnostics := by
  obtain ⟨bs, de, dg, id, nm, os, pid, sz, ssid, surl, tc, tm, ver, tmo⟩ := plan
  subst hb
  cases surl with
  | none => simp at hu
  | some u =>
    cases ssid with
    | none => exact ⟨rfl, rfl, List.Mem.head _⟩
    | some s => exact ⟨rfl, rfl, List.Mem.tail _ (List.Mem.head _)⟩

/-- Witness for C8: the URL plan without `block_size` errors with the
also-requires diagnostic and no remote call. -/
theorem create_also_requires_block_size_witness :
    hasError (imageCreate createClientOk urlPlanNoBlockSize).diagnostics = true ∧
    (imageCreate createClientOk urlPlanNoBlockSize).remoteCalls = [] ∧
    ({ severity := Severity.error, summary := "Invalid Attribute Combination",
       detail := "Attribute \"block_size\" must be specified when \"source_url\" is specified" } :
      Diagnostic) ∈ (imageCreate createClientOk urlPlanNoBlockSize).diagnostics :=
  create_also_requires_block_size createClientOk urlPlanNoBlockSize rfl rfl

/-- C10: when `source_url` is the populated variant (with `block_size` set so
the configuration is valid), the remote create request carries the
hard-coded source type exactly when the URL value equals
`you_can_boot_anything_as_long_as_its_alpine`, and the URL source type for
every other value. -/
theorem create_alpine_source_type
    (client : ImageCreateParams → Except ApiError Image) (plan : imageResourceModel)
    (u : String) (b : Int)
    (hs : plan.sourceSnapshotId = none) (hu : plan.sourceUrl = some u)
    (hb : plan.blockSize = some b) :
    (imageCreate client plan).remoteCalls =
      [imageCreateParamsOf plan
        { id := u,
          type :=
            if u = magicAlpineValue then
              ImageSourceType.youCanBootAnythingAsLongAsItsAlpine
            else ImageSourceType.url,
          blockSize := b }] := by
  obtain ⟨bs, de, dg, id, nm, os, pid, sz, ssid, surl, tc, tm, ver, tmo⟩ := plan
  subst hs
  subst hu
  subst hb
  have hsrc : imageSource
      ⟨some b, de, dg, id, nm, os, pid, sz, none, some u, tc, tm, ver, tmo⟩ =
      Except.ok
        { id := u,
          type :=
            if u = magicAlpineValue then
              ImageSourceType.youCanBootAnythingAsLongAsItsAlpine
            else ImageSourceType.url,
          blockSize := b } := by
    simp [imageSource, valueString, valueInt64, Option.some.injEq]
  exact imageCreate_remoteCalls_valid client _ _ rfl hsrc

/-- Witness for C10: the plan whose `source_url` is the hard-coded value is
sent with the special source type. -/
theorem create_alpine_source_type_witness :
    (imageCreate createClientOk alpinePlan).remoteCalls =
      [imageCreateParamsOf alpinePlan
        { id := magicAlpineValue,
          type := ImageSourceType.youCanBootAnythingAsLongAsItsAlpine,
          blockSize := 512 }] := by
  have h := create_alpine_source_type createClientOk alpinePlan magicAlpineValue 512
    rfl rfl rfl
  simpa using h

end OxideImage
